import Mathlib

/-!
Shallow embedding of `repo_check/cli.py` (repository `repo-check`).

The probe `_check_repo` issues a fixed sequence of `git` invocations through
`_run_git`, which returns `(returncode, stdout.strip(), stderr.strip())`.
We model that external boundary by a record of responses, one per invocation
site, and translate the control flow of `cli.py` literally.

String primitives are modelled over `String.data` (the underlying character
list) so that every definition evaluates inside the kernel; each helper
mirrors the Python string method named in its doc comment.
-/

namespace RepoCheck

/-- Python `str.split()` (no separator): split on runs of whitespace,
discarding empty pieces.  `acc` holds the current token, reversed. -/
def pySplitChars : List Char → List Char → List String
  | [], acc => if acc = [] then [] else [String.mk acc.reverse]
  | c :: cs, acc =>
    if c.isWhitespace then
      (if acc = [] then pySplitChars cs [] else String.mk acc.reverse :: pySplitChars cs [])
    else pySplitChars cs (c :: acc)

/-- Python `s.split()` with no arguments. -/
def pySplit (s : String) : List String := pySplitChars s.data []

/-- Python `s.isdigit()` (restricted to ASCII digits, the only ones `git`
emits): non-empty and all characters are digits. -/
def pyIsDigit (s : String) : Bool := decide (s ≠ "") && s.data.all Char.isDigit

/-- Python `int(s)` on a digit string. -/
def pyInt (s : String) : Nat :=
  s.data.foldl (fun a c => a * 10 + (c.toNat - 48)) 0

/-- Python truthiness of an optional string (`None` and `""` are falsy). -/
def pyTruthy : Option String → Bool
  | none => false
  | some s => s != ""

@[simp] theorem pyTruthy_none : pyTruthy none = false := rfl

@[simp] theorem pyTruthy_some (s : String) : pyTruthy (some s) = (s != "") := rfl

/-- Python `err or None` (cli.py lines 223, 238): an empty stripped stderr
degrades to `None`. -/
def pyOrNone (s : String) : Option String :=
  if s = "" then none else some s

/-- `RepoResult` dataclass (cli.py lines 14-25).  Ahead/behind counts are
parsed from digit strings, hence `Nat`. -/
structure RepoResult where
  name : String
  path : String
  is_repo : Bool
  branch : Option String
  is_clean : Option Bool
  origin_url : Option String
  upstream_ref : Option String
  ahead_count : Option Nat
  behind_count : Option Nat
  error : Option String
  deriving DecidableEq, Repr

/-- One `_run_git` response: `(completed.returncode, stdout.strip(),
stderr.strip())` (cli.py lines 55-63). -/
structure GitResp where
  code : Int
  out : String
  err : String
  deriving DecidableEq, Repr

/-- The responses the external `git` boundary gives to the six queries
`_check_repo` can issue, in source order (cli.py lines 196, 211, 226, 241,
244, 246).  Later queries are simply unread when the code returns early. -/
structure GitEnv where
  worktree : GitResp
  head : GitResp
  status : GitResp
  origin : GitResp
  upstream : GitResp
  revlist : GitResp
  deriving DecidableEq, Repr

/-- cli.py lines 246-257: parse `git rev-list --left-right --count
HEAD...@{u}`.  Returns `(behind_count, ahead_count)`: the source assigns
`behind_count = int(parts[0])` and `ahead_count = int(parts[1])`. -/
def _divergence (revlist : GitResp) : Option Nat × Option Nat :=
  if revlist.code = 0 ∧ revlist.out ≠ "" then
    match pySplit revlist.out with
    | [p0, p1] =>
      if pyIsDigit p0 && pyIsDigit p1 then (some (pyInt p0), some (pyInt p1))
      else (none, none)
    | _ => (none, none)
  else (none, none)

/-- `_check_repo` (cli.py lines 195-276), with the `_run_git` boundary
abstracted into `env`.  The four early/merged returns are translated
literally; the final return's upstream conditional (lines 244-262) is the
same two-way split as the source, with `_divergence` factoring out lines
246-257. -/
def _check_repo (env : GitEnv) (path name : String) : RepoResult :=
  if env.worktree.code ≠ 0 then
    { name, path, is_repo := false, branch := none, is_clean := none,
      origin_url := none, upstream_ref := none, ahead_count := none,
      behind_count := none, error := none }
  else if env.head.code ≠ 0 then
    { name, path, is_repo := true, branch := none, is_clean := none,
      origin_url := none, upstream_ref := none, ahead_count := none,
      behind_count := none, error := pyOrNone env.head.err }
  else if env.status.code ≠ 0 then
    { name, path, is_repo := true, branch := some env.head.out, is_clean := none,
      origin_url := none, upstream_ref := none, ahead_count := none,
      behind_count := none, error := pyOrNone env.status.err }
  else
    let origin_url :=
      if env.origin.code = 0 ∧ env.origin.out ≠ "" then some env.origin.out else none
    if env.upstream.code = 0 ∧ env.upstream.out ≠ "" then
      { name, path, is_repo := true, branch := some env.head.out,
        is_clean := some (env.status.out == ""), origin_url,
        upstream_ref := some env.upstream.out,
        ahead_count := (_divergence env.revlist).2,
        behind_count := (_divergence env.revlist).1,
        error := none }
    else
      { name, path, is_repo := true, branch := some env.head.out,
        is_clean := some (env.status.out == ""), origin_url,
        upstream_ref := none, ahead_count := none, behind_count := none,
        error := none }

/-- C1: when the divergence query succeeds and its output splits into two
digit tokens `l` and `r`, `_check_repo` maps the first (left) column to
`behind_count` and the second (right) column to `ahead_count`. -/
theorem check_repo_left_right_mapping (env : GitEnv) (path name l r : String)
    (h1 : env.worktree.code = 0) (h2 : env.head.code = 0)
    (h3 : env.status.code = 0) (h4 : env.upstream.code = 0)
    (h5 : env.upstream.out ≠ "") (h6 : env.revlist.code = 0)
    (h7 : env.revlist.out ≠ "") (h8 : pySplit env.revlist.out = [l, r])
    (h9 : pyIsDigit l = true) (h10 : pyIsDigit r = true) :
    (_check_repo env path name).behind_count = some (pyInt l) ∧
      (_check_repo env path name).ahead_count = some (pyInt r) := by
  simp [_check_repo, _divergence, h1, h2, h3, h4, h5, h6, h7, h8, h9, h10]

/-- C1 witness: on the scripted probe of the sync-status test (divergence
output `"3 1"`), `_check_repo` reports `behind_count = 3`, `ahead_count = 1`. -/
theorem check_repo_left_right_mapping_witness :
    (_check_repo
        ⟨⟨0, "true", ""⟩, ⟨0, "main", ""⟩, ⟨0, "", ""⟩,
         ⟨0, "git@example.com:org/repo.git", ""⟩, ⟨0, "origin/main", ""⟩,
         ⟨0, "3 1", ""⟩⟩ "/tmp/repo" "repo").behind_count = some 3 ∧
    (_check_repo
        ⟨⟨0, "true", ""⟩, ⟨0, "main", ""⟩, ⟨0, "", ""⟩,
         ⟨0, "git@example.com:org/repo.git", ""⟩, ⟨0, "origin/main", ""⟩,
         ⟨0, "3 1", ""⟩⟩ "/tmp/repo" "repo").ahead_count = some 1 := by
  have h := check_repo_left_right_mapping
    ⟨⟨0, "true", ""⟩, ⟨0, "main", ""⟩, ⟨0, "", ""⟩,
     ⟨0, "git@example.com:org/repo.git", ""⟩, ⟨0, "origin/main", ""⟩,
     ⟨0, "3 1", ""⟩⟩ "/tmp/repo" "repo" "3" "1"
    rfl rfl rfl rfl (by decide) rfl (by decide) (by decide) (by decide) (by decide)
  exact ⟨h.1.trans (by decide), h.2.trans (by decide)⟩

/-- C10: shape invariants of `_check_repo`: (a) a failed work-tree check
yields `is_repo = false` with every optional field `none`; (b) if the
work-tree, HEAD and status queries all succeed, `error = none`; (c) `error`
is non-`none` only when the HEAD read or the status read failed (inside a
valid work tree). -/
theorem check_repo_shape_invariants (env : GitEnv) (path name : String) :
    (env.worktree.code ≠ 0 →
      _check_repo env path name =
        { name, path, is_repo := false, branch := none, is_clean := none,
          origin_url := none, upstream_ref := none, ahead_count := none,
          behind_count := none, error := none }) ∧
    (env.worktree.code = 0 → env.head.code = 0 → env.status.code = 0 →
      (_check_repo env path name).error = none) ∧
    ((_check_repo env path name).error ≠ none →
      env.worktree.code = 0 ∧ (env.head.code ≠ 0 ∨ env.status.code ≠ 0)) := by
  refine ⟨fun h1 => by simp [_check_repo, h1], ?_, ?_⟩
  · intro h1 h2 h3
    unfold _check_repo
    split_ifs <;> simp_all
  · intro herr
    by_cases h1 : env.worktree.code = 0
    · refine ⟨h1, ?_⟩
      by_cases h2 : env.head.code = 0
      · by_cases h3 : env.status.code = 0
        · exfalso
          apply herr
          unfold _check_repo
          split_ifs <;> simp_all
        · exact Or.inr h3
      · exact Or.inl h2
    · exfalso
      apply herr
      simp [_check_repo, h1]

/-- C10 witness: a failed work-tree probe (exit code 128) produces the fully
`none` non-repository result, and a fully successful probe has no error. -/
theorem check_repo_shape_invariants_witness :
    _check_repo ⟨⟨128, "", "fatal"⟩, ⟨0, "main", ""⟩, ⟨0, "", ""⟩,
        ⟨0, "", ""⟩, ⟨0, "", ""⟩, ⟨0, "", ""⟩⟩ "/tmp/x" "x" =
      { name := "x", path := "/tmp/x", is_repo := false, branch := none,
        is_clean := none, origin_url := none, upstream_ref := none,
        ahead_count := none, behind_count := none, error := none } ∧
    (_check_repo ⟨⟨0, "true", ""⟩, ⟨0, "main", ""⟩, ⟨0, "", ""⟩,
        ⟨0, "", ""⟩, ⟨1, "", ""⟩, ⟨0, "", ""⟩⟩ "/tmp/x" "x").error = none := by
  constructor
  · exact (check_repo_shape_invariants
      ⟨⟨128, "", "fatal"⟩, ⟨0, "main", ""⟩, ⟨0, "", ""⟩,
       ⟨0, "", ""⟩, ⟨0, "", ""⟩, ⟨0, "", ""⟩⟩ "/tmp/x" "x").1 (by decide)
  · exact (check_repo_shape_invariants
      ⟨⟨0, "true", ""⟩, ⟨0, "main", ""⟩, ⟨0, "", ""⟩,
       ⟨0, "", ""⟩, ⟨1, "", ""⟩, ⟨0, "", ""⟩⟩ "/tmp/x" "x").2.1 rfl rfl rfl

/-! ## Renderer (cli.py lines 28-52, 352-493) -/

def ANSI_RESET : String := "\x1b[0m"
def ANSI_RED : String := "\x1b[31m"
def ANSI_GREEN : String := "\x1b[32m"
def ANSI_YELLOW : String := "\x1b[33m"
def ANSI_BLUE : String := "\x1b[34m"
def ANSI_CYAN : String := "\x1b[36m"
def ANSI_DIM : String := "\x1b[2m"

def LABEL_PENDING : String := "pending"
def LABEL_NOT_INIT : String := "not-init"
def LABEL_UNKNOWN : String := "unknown"
def LABEL_DETACHED : String := "detached"
def LABEL_CLEAN : String := "clean"
def LABEL_DIRTY : String := "dirty"
def LABEL_ORIGIN : String := "origin"
def LABEL_NO_REMOTE : String := "no-remote"
def LABEL_IN_SYNC : String := "in-sync"
def LABEL_NO_UPSTREAM : String := "no-upstream"
def LABEL_ERROR : String := "error"

/-- `_color` (cli.py lines 49-52). -/
def _color (text code : String) (use_color : Bool) : String :=
  if use_color then code ++ text ++ ANSI_RESET else text

/-- Python `sep.join(parts)`. -/
def pyJoin (sep : String) : List String → String
  | [] => ""
  | [x] => x
  | x :: xs => x ++ sep ++ pyJoin sep xs

/-- The composite sync label built at cli.py lines 374-379 and 459-464:
`"ahead N"` and/or `"behind M"` for the nonzero counts, joined by `", "`;
the two sites differ only in their fallback for an empty parts list. -/
def syncPartsLabel (a b : Nat) (fallback : String) : String :=
  let parts := (if a > 0 then ["ahead " ++ toString a] else []) ++
               (if b > 0 then ["behind " ++ toString b] else [])
  if parts = [] then fallback else pyJoin ", " parts

/-- `format_cell` (cli.py lines 358-360): the colored text followed by
`max 0 (width - len raw)` spaces (truncated subtraction on `Nat`). -/
def format_cell (raw colored : String) (width : Nat) : String :=
  colored ++ String.mk (List.replicate (width - raw.length) ' ')

/-- The five column widths computed by `_render_lines`
(cli.py lines 362-366). -/
structure RenderWidths where
  max_name : Nat
  max_branch : Nat
  max_clean : Nat
  max_remote : Nat
  max_sync : Nat
  deriving DecidableEq, Repr

/-- One iteration of the width-extension loop (cli.py lines 368-380): a
resolved repository result can widen the branch column (its branch name) and,
in extended mode, the sync column (its composite ahead/behind label). -/
def _widths_step (show_remote : Bool) (w : RenderWidths) (r : Option RepoResult) :
    RenderWidths :=
  match r with
  | none => w
  | some res =>
    if !res.is_repo then w
    else
      let w1 :=
        if pyTruthy res.branch then
          { w with max_branch := max w.max_branch (res.branch.getD "").length }
        else w
      let lbl := syncPartsLabel (res.ahead_count.getD 0) (res.behind_count.getD 0)
        LABEL_IN_SYNC
      if show_remote && pyTruthy res.upstream_ref &&
          res.ahead_count.isSome && res.behind_count.isSome then
        { w1 with max_sync := max w1.max_sync lbl.length }
      else w1

/-- Column widths of `_render_lines` (cli.py lines 362-380): fixed bases from
the name list and label sets, then extended by the loop over `results`. -/
def _render_widths (names : List String) (results : List (Option RepoResult))
    (show_remote : Bool) : RenderWidths :=
  let base : RenderWidths :=
    { max_name := names.foldl (fun m s => max m s.length) 0,
      max_branch := max LABEL_DETACHED.length LABEL_UNKNOWN.length,
      max_clean := max (max (max (max LABEL_CLEAN.length LABEL_DIRTY.length)
        LABEL_UNKNOWN.length) LABEL_NOT_INIT.length) LABEL_PENDING.length,
      max_remote := max LABEL_ORIGIN.length LABEL_NO_REMOTE.length,
      max_sync := max (max LABEL_IN_SYNC.length LABEL_NO_UPSTREAM.length)
        LABEL_ERROR.length }
  results.foldl (_widths_step show_remote) base

/-- Branch cell `(raw, colored)` of a repository row (cli.py lines 425-431):
falsy branch renders "unknown", the literal branch `"HEAD"` renders
"detached", otherwise the branch name verbatim. -/
def _branch_cell (res : RepoResult) (use_color : Bool) : String × String :=
  let branch :=
    match res.branch with
    | some b => if b = "" then LABEL_UNKNOWN else b
    | none => LABEL_UNKNOWN
  if branch = "HEAD" then (LABEL_DETACHED, _color LABEL_DETACHED ANSI_BLUE use_color)
  else (branch, _color branch ANSI_BLUE use_color)

/-- Clean cell (cli.py lines 433-441). -/
def _clean_cell (res : RepoResult) (use_color : Bool) : String × String :=
  match res.is_clean with
  | some true => (LABEL_CLEAN, _color LABEL_CLEAN ANSI_GREEN use_color)
  | some false => (LABEL_DIRTY, _color LABEL_DIRTY ANSI_RED use_color)
  | none => (LABEL_UNKNOWN, _color LABEL_UNKNOWN ANSI_YELLOW use_color)

/-- Remote cell (cli.py lines 448-453). -/
def _remote_cell (res : RepoResult) (use_color : Bool) : String × String :=
  if pyTruthy res.origin_url then (LABEL_ORIGIN, _color LABEL_ORIGIN ANSI_CYAN use_color)
  else (LABEL_NO_REMOTE, _color LABEL_NO_REMOTE ANSI_RED use_color)

/-- Sync cell of a repository row (cli.py lines 454-474), including the
trailing error override of lines 472-474. -/
def _sync_cell (res : RepoResult) (use_color : Bool) : String × String :=
  let cell :=
    if pyTruthy res.upstream_ref && res.ahead_count.isSome && res.behind_count.isSome then
      let a := res.ahead_count.getD 0
      let b := res.behind_count.getD 0
      if b = 0 && a = 0 then (LABEL_IN_SYNC, _color LABEL_IN_SYNC ANSI_GREEN use_color)
      else
        let label := syncPartsLabel a b "out-of-sync"
        (label, _color label (if b > 0 then ANSI_RED else ANSI_YELLOW) use_color)
    else (LABEL_NO_UPSTREAM, _color LABEL_NO_UPSTREAM ANSI_YELLOW use_color)
  if pyTruthy res.error then (LABEL_ERROR, _color LABEL_ERROR ANSI_RED use_color)
  else cell

/-- One row of `_render_lines` (cli.py lines 383-491), for the widths `w`
already computed: a pending placeholder row, a "not-init" row, or a
repository row with three (plain) or five (extended) padded cells. -/
def _render_row (w : RenderWidths) (use_color show_remote : Bool)
    (name : String) (r : Option RepoResult) : String :=
  match r with
  | none =>
    let bc := _color LABEL_PENDING ANSI_DIM use_color
    if show_remote then
      format_cell name name w.max_name ++ "  " ++
      format_cell LABEL_PENDING bc w.max_branch ++ "  " ++
      format_cell "" "" w.max_clean ++ "  " ++
      format_cell "" "" w.max_remote ++ "  " ++
      format_cell "" "" w.max_sync
    else
      format_cell name name w.max_name ++ "  " ++
      format_cell LABEL_PENDING bc w.max_branch ++ "  " ++
      format_cell "" "" w.max_clean
  | some res =>
    if !res.is_repo then
      let bc := _color LABEL_NOT_INIT ANSI_YELLOW use_color
      if show_remote then
        format_cell name name w.max_name ++ "  " ++
        format_cell LABEL_NOT_INIT bc w.max_branch ++ "  " ++
        format_cell "" "" w.max_clean ++ "  " ++
        format_cell "" "" w.max_remote ++ "  " ++
        format_cell "" "" w.max_sync
      else
        format_cell name name w.max_name ++ "  " ++
        format_cell LABEL_NOT_INIT bc w.max_branch ++ "  " ++
        format_cell "" "" w.max_clean
    else
      let bcell := _branch_cell res use_color
      let ccell := _clean_cell res use_color
      if show_remote then
        let rcell := _remote_cell res use_color
        let scell := _sync_cell res use_color
        format_cell name name w.max_name ++ "  " ++
        format_cell bcell.1 bcell.2 w.max_branch ++ "  " ++
        format_cell ccell.1 ccell.2 w.max_clean ++ "  " ++
        format_cell rcell.1 rcell.2 w.max_remote ++ "  " ++
        format_cell scell.1 scell.2 w.max_sync
      else
        format_cell name name w.max_name ++ "  " ++
        format_cell bcell.1 bcell.2 w.max_branch ++ "  " ++
        format_cell ccell.1 ccell.2 w.max_clean

/-- `_render_lines` (cli.py lines 352-493): compute the widths once for this
frame, then emit one formatted row per entry (`results[idx]` modelled by
pairing positionally via `zip`; call sites pass equal-length lists). -/
def _render_lines (names : List String) (results : List (Option RepoResult))
    (use_color show_remote : Bool) : List String :=
  let w := _render_widths names results show_remote
  (names.zip results).map (fun nr => _render_row w use_color show_remote nr.1 nr.2)

/-- A resolved result whose branch name is longer than every fixed
branch-column label. -/
def wideBranchResult : RepoResult :=
  { name := "a", path := "/a", is_repo := true,
    branch := some "feature/very-long-branch", is_clean := some true,
    origin_url := none, upstream_ref := none, ahead_count := none,
    behind_count := none, error := none }

/-- C4 counterexample: the same still-unresolved entry `"b"` is padded
differently in two live-mode frames that differ only in whether entry `"a"`
has resolved (to a result with a long branch name): the branch column width
grows from the resolved branch name, so column widths do change between
frames. -/
theorem render_row_width_changes_between_frames :
    (_render_lines ["a", "b"] [none, none] false true)[1]? ≠
      (_render_lines ["a", "b"] [some wideBranchResult, none] false true)[1]? := by
  decide

/-- The width-extension step leaves the name, clean and remote column widths
unchanged (it only ever updates `max_branch` and `max_sync`). -/
theorem widths_step_preserves_static (sr : Bool) (w : RenderWidths)
    (r : Option RepoResult) :
    (_widths_step sr w r).max_name = w.max_name ∧
      (_widths_step sr w r).max_clean = w.max_clean ∧
      (_widths_step sr w r).max_remote = w.max_remote := by
  cases r with
  | none => exact ⟨rfl, rfl, rfl⟩
  | some res =>
    simp only [_widths_step]
    split_ifs <;> simp

/-- Folding the width-extension loop leaves the name, clean and remote column
widths at their base values. -/
theorem widths_foldl_preserves_static (sr : Bool) :
    ∀ (rs : List (Option RepoResult)) (w : RenderWidths),
      ((rs.foldl (_widths_step sr) w).max_name = w.max_name ∧
        (rs.foldl (_widths_step sr) w).max_clean = w.max_clean ∧
        (rs.foldl (_widths_step sr) w).max_remote = w.max_remote)
  | [], _ => ⟨rfl, rfl, rfl⟩
  | r :: rs, w => by
    have h1 := widths_step_preserves_static sr w r
    have h2 := widths_foldl_preserves_static sr rs (_widths_step sr w r)
    simp only [List.foldl_cons]
    exact ⟨h2.1.trans h1.1, h2.2.1.trans h1.2.1, h2.2.2.trans h1.2.2⟩

/-- C4 amended: only the name, clean-status and remote-presence column widths
are frame-invariant (they depend on the entry-name list and the fixed label
sets alone); the branch and sync column widths are additionally extended by
the resolved results' branch names and composite ahead/behind labels, so
those two columns can widen between live-mode frames, as the counterexample
shows.  (The name-list must be nonempty: the source's `max()` call presumes
it, and call sites guarantee it.) -/
theorem render_widths_static_columns (names : List String)
    (rs1 rs2 : List (Option RepoResult)) (sr : Bool) (_hne : names ≠ []) :
    (_render_widths names rs1 sr).max_name = (_render_widths names rs2 sr).max_name ∧
      (_render_widths names rs1 sr).max_clean = (_render_widths names rs2 sr).max_clean ∧
      (_render_widths names rs1 sr).max_remote = (_render_widths names rs2 sr).max_remote := by
  have h1 := widths_foldl_preserves_static sr rs1
  have h2 := widths_foldl_preserves_static sr rs2
  unfold _render_widths
  exact ⟨((h1 _).1).trans ((h2 _).1).symm,
    ((h1 _).2.1).trans ((h2 _).2.1).symm,
    ((h1 _).2.2).trans ((h2 _).2.2).symm⟩

/-- C4 amended witness: between the two concrete frames of the
counterexample, the name, clean and remote column widths agree. -/
theorem render_widths_static_columns_witness :
    (_render_widths ["a", "b"] [none, none] true).max_name =
      (_render_widths ["a", "b"] [some wideBranchResult, none] true).max_name ∧
    (_render_widths ["a", "b"] [none, none] true).max_clean =
      (_render_widths ["a", "b"] [some wideBranchResult, none] true).max_clean ∧
    (_render_widths ["a", "b"] [none, none] true).max_remote =
      (_render_widths ["a", "b"] [some wideBranchResult, none] true).max_remote :=
  render_widths_static_columns ["a", "b"] [none, none]
    [some wideBranchResult, none] true (by decide)

/-- C8: `_render_lines` emits exactly one line per entry, for any mix of
unresolved and resolved slots and in either mode.  (The name list is
nonempty at every call site, as the source's `max()` requires.) -/
theorem render_lines_row_count (names : List String)
    (results : List (Option RepoResult)) (use_color show_remote : Bool)
    (_hne : names ≠ []) (hlen : results.length = names.length) :
    (_render_lines names results use_color show_remote).length = names.length := by
  simp [_render_lines, hlen]

/-- C8 witness: two entries, one resolved and one pending, render as exactly
two lines. -/
theorem render_lines_row_count_witness :
    (_render_lines ["a", "b"] [some wideBranchResult, none] true true).length = 2 :=
  render_lines_row_count ["a", "b"] [some wideBranchResult, none] true true
    (by decide) (by decide)

/-- If a probe reports a configured upstream, it took the full successful
path through `_check_repo`, so its `error` field is `none`. -/
theorem check_repo_upstream_err_none (env : GitEnv) (path name : String)
    (hu : pyTruthy (_check_repo env path name).upstream_ref = true) :
    (_check_repo env path name).error = none := by
  unfold _check_repo at hu ⊢
  split_ifs at hu ⊢ <;> simp_all [pyTruthy]

/-- C5: a probed repository with a configured upstream and zero ahead and
zero behind commits renders the "in-sync" label in the extended-mode sync
column, never the "no-upstream" label.  (Stated for every result `_check_repo`
can produce; such a result always has `error = none`, so the error override
of cli.py line 472 cannot fire.) -/
theorem check_repo_in_sync_label (env : GitEnv) (path name : String)
    (use_color : Bool)
    (hu : pyTruthy (_check_repo env path name).upstream_ref = true)
    (ha : (_check_repo env path name).ahead_count = some 0)
    (hb : (_check_repo env path name).behind_count = some 0) :
    (_sync_cell (_check_repo env path name) use_color).1 = LABEL_IN_SYNC ∧
      (_sync_cell (_check_repo env path name) use_color).1 ≠ LABEL_NO_UPSTREAM := by
  have herr := check_repo_upstream_err_none env path name hu
  have h1 : (_sync_cell (_check_repo env path name) use_color).1 = LABEL_IN_SYNC := by
    simp [_sync_cell, hu, ha, hb, herr]
  exact ⟨h1, by rw [h1]; decide⟩

/-- C5 witness: a fully successful probe whose divergence output is `"0 0"`
renders the in-sync label. -/
theorem check_repo_in_sync_label_witness :
    (_sync_cell
        (_check_repo ⟨⟨0, "true", ""⟩, ⟨0, "main", ""⟩, ⟨0, "", ""⟩,
          ⟨0, "url", ""⟩, ⟨0, "origin/main", ""⟩, ⟨0, "0 0", ""⟩⟩ "/r" "r")
        true).1 = LABEL_IN_SYNC ∧
    (_sync_cell
        (_check_repo ⟨⟨0, "true", ""⟩, ⟨0, "main", ""⟩, ⟨0, "", ""⟩,
          ⟨0, "url", ""⟩, ⟨0, "origin/main", ""⟩, ⟨0, "0 0", ""⟩⟩ "/r" "r")
        true).1 ≠ LABEL_NO_UPSTREAM :=
  check_repo_in_sync_label
    ⟨⟨0, "true", ""⟩, ⟨0, "main", ""⟩, ⟨0, "", ""⟩,
     ⟨0, "url", ""⟩, ⟨0, "origin/main", ""⟩, ⟨0, "0 0", ""⟩⟩ "/r" "r" true
    (by decide) (by decide) (by decide)

/-- C9: a repository row with an upstream configured but a failed divergence
query (`ahead_count` or `behind_count` is `none`) and no error renders the
"no-upstream" label in the extended-mode sync column — the very cell an
upstream-less repository gets, as the second conjunct makes precise. -/
theorem sync_cell_missing_counts_no_upstream (res : RepoResult) (use_color : Bool)
    (_hrepo : res.is_repo = true)
    (_hu : pyTruthy res.upstream_ref = true)
    (hc : res.ahead_count = none ∨ res.behind_count = none)
    (he : res.error = none) :
    (_sync_cell res use_color).1 = LABEL_NO_UPSTREAM ∧
      _sync_cell res use_color = _sync_cell { res with upstream_ref := none } use_color := by
  rcases hc with hc | hc <;> simp [_sync_cell, hc, he]

/-- C9 witness: upstream configured, counts missing, no error: the sync cell
is "no-upstream". -/
theorem sync_cell_missing_counts_no_upstream_witness :
    (_sync_cell
        { name := "r", path := "/r", is_repo := true, branch := some "main",
          is_clean := some true, origin_url := some "url",
          upstream_ref := some "origin/main", ahead_count := none,
          behind_count := none, error := none } true).1 = LABEL_NO_UPSTREAM :=
  (sync_cell_missing_counts_no_upstream
    { name := "r", path := "/r", is_repo := true, branch := some "main",
      is_clean := some true, origin_url := some "url",
      upstream_ref := some "origin/main", ahead_count := none,
      behind_count := none, error := none } true rfl (by decide)
    (Or.inl rfl) rfl).1

/-! ## Folder enumeration and ignore filtering (cli.py lines 155-178, 279-349)

Filesystem paths are modelled as lists of path segments (the canonical
absolute form `os.path.abspath`/`normpath` produces); `os.path.commonpath`
on two such paths is the longest common segment prefix.  A directory listing
(`os.scandir`) is a list of `(name, is_dir)` pairs, and the filesystem seen
by the recursive scan is a map from a base path to its listing. -/

/-- Python string `<=` on code points, over character lists. -/
def lexLeChars : List Char → List Char → Bool
  | [], _ => true
  | _ :: _, [] => false
  | a :: as, b :: bs =>
    if a.toNat < b.toNat then true
    else if b.toNat < a.toNat then false
    else lexLeChars as bs

/-- Python string `<=`. -/
def pyStrLe (a b : String) : Bool := lexLeChars a.data b.data

/-- Python `s.lower()` (ASCII range, the sort key of cli.py line 297). -/
def pyLower (s : String) : String := String.mk (s.data.map Char.toLower)

/-- Python `s.startswith(".")` (cli.py line 292). -/
def pyStartsWithDot (s : String) : Bool :=
  match s.data with
  | c :: _ => c == '.'
  | [] => false

/-- The sort key relation of cli.py line 297:
`entries.sort(key=lambda item: item[0].lower())`. -/
def entryKeyLe (a b : String × List String) : Prop :=
  pyStrLe (pyLower a.1) (pyLower b.1) = true

instance : DecidableRel entryKeyLe :=
  fun a b => (inferInstance : Decidable (pyStrLe (pyLower a.1) (pyLower b.1) = true))

theorem lexLeChars_trans : ∀ as bs cs : List Char,
    lexLeChars as bs = true → lexLeChars bs cs = true → lexLeChars as cs = true
  | [], _, _, _, _ => rfl
  | _ :: _, [], _, h1, _ => by simp [lexLeChars] at h1
  | _ :: _, _ :: _, [], _, h2 => by simp [lexLeChars] at h2
  | a :: as, b :: bs, c :: cs, h1, h2 => by
    simp only [lexLeChars] at h1 h2 ⊢
    split_ifs at h1 h2 ⊢ <;>
      first
        | rfl
        | exact lexLeChars_trans as bs cs h1 h2
        | omega

theorem lexLeChars_total : ∀ as bs : List Char,
    lexLeChars as bs = true ∨ lexLeChars bs as = true
  | [], _ => Or.inl rfl
  | _ :: _, [] => Or.inr rfl
  | a :: as, b :: bs => by
    simp only [lexLeChars]
    rcases Nat.lt_trichotomy a.toNat b.toNat with h | h | h
    · left; simp [h]
    · rw [h]
      simpa using lexLeChars_total as bs
    · right; simp [h]

instance : IsTrans (String × List String) entryKeyLe :=
  ⟨fun _ _ _ h1 h2 => lexLeChars_trans _ _ _ h1 h2⟩

instance : IsTotal (String × List String) entryKeyLe :=
  ⟨fun _ _ => lexLeChars_total _ _⟩

/-- An ignore-file entry after `os.path.expanduser`: either already absolute
or relative (joined onto the base path by resolution). -/
inductive PyPath where
  | abs (segs : List String)
  | rel (segs : List String)
  deriving DecidableEq, Repr

/-- `_resolve_ignore_paths` (cli.py lines 155-164): absolute entries stand,
relative entries are joined onto the base path. -/
def _resolve_ignore_paths (base_path : List String) (entries : List PyPath) :
    List (List String) :=
  entries.map (fun e =>
    match e with
    | .abs segs => segs
    | .rel segs => base_path ++ segs)

/-- `os.path.commonpath` of two canonical absolute paths: the longest common
segment prefix. -/
def commonPrefixSeg : List String → List String → List String
  | a :: as, b :: bs => if a = b then a :: commonPrefixSeg as bs else []
  | _, _ => []

/-- `_is_ignored` (cli.py lines 167-178): true when `commonpath([path,
ignored]) == ignored` for some resolved ignore path.  (`any` on an empty
list is the source's early `False` return.) -/
def _is_ignored (path : List String) (ignored_paths : List (List String)) : Bool :=
  ignored_paths.any (fun ig => commonPrefixSeg path ig == ig)

/-- `_has_ancestor` (cli.py lines 315-325): some other candidate is a strict
prefix of (`commonpath`-equal under) `path`. -/
def _has_ancestor (path : List String) (candidates : List (List String)) : Bool :=
  candidates.any (fun other => other != path && (commonPrefixSeg path other == other))

/-- `_list_subfolders` (cli.py lines 279-298): keep the directory entries
that are not ignored and not hidden (when hiding is on), pair each name with
its absolute path, and sort case-insensitively by name (Python's stable sort
modelled by stable insertion sort). -/
def _list_subfolders (base_path : List String) (listing : List (String × Bool))
    (include_hidden : Bool) (ignored_paths : List (List String)) :
    List (String × List String) :=
  let entries := listing.filterMap (fun e =>
    if !e.2 then none
    else if _is_ignored (base_path ++ [e.1]) ignored_paths then none
    else if !include_hidden && pyStartsWithDot e.1 then none
    else some (e.1, base_path ++ [e.1]))
  List.insertionSort entryKeyLe entries

/-- The common-prefix test the source's `commonpath([path, ignored]) ==
ignored` performs holds exactly when `ignored` is a segment prefix of
`path`. -/
theorem commonPrefixSeg_eq_iff : ∀ p ig : List String,
    commonPrefixSeg p ig = ig ↔ ∃ t, ig ++ t = p
  | p, [] => by
    constructor
    · intro _
      exact ⟨p, rfl⟩
    · intro _
      cases p <;> rfl
  | [], b :: bs => by
    constructor
    · intro h
      simp [commonPrefixSeg] at h
    · rintro ⟨t, ht⟩
      simp at ht
  | a :: as, b :: bs => by
    by_cases hab : a = b
    · subst hab
      simp only [commonPrefixSeg, if_pos rfl]
      constructor
      · intro h
        have h' : commonPrefixSeg as bs = bs := by
          injection h
        obtain ⟨t, ht⟩ := (commonPrefixSeg_eq_iff as bs).mp h'
        exact ⟨t, by simp [ht]⟩
      · rintro ⟨t, ht⟩
        have ht' : bs ++ t = as := by
          simpa using ht
        rw [(commonPrefixSeg_eq_iff as bs).mpr ⟨t, ht'⟩]
        simp
    · simp only [commonPrefixSeg, if_neg hab]
      constructor
      · intro h
        exact absurd h.symm (by simp)
      · rintro ⟨t, ht⟩
        exact absurd (List.head_eq_of_cons_eq ht).symm hab

/-- C6: a candidate folder is excluded by the ignore filter iff its absolute
path equals a resolved ignore path or lies strictly below one; accordingly an
un-ignored directory entry appears in the enumeration and an ignored one
never does (for entries the hidden filter does not touch); and a sibling
whose name merely shares a string prefix with an ignore entry (`foo-bar` vs
ignore `foo`) is not excluded. -/
theorem ignored_iff_under_ignore_path :
    (∀ (p : List String) (igs : List (List String)),
      _is_ignored p igs = true ↔
        ∃ ig ∈ igs, ig = p ∨ ∃ t, t ≠ [] ∧ ig ++ t = p) ∧
    (∀ (base : List String) (listing : List (String × Bool)) (include_hidden : Bool)
        (igs : List (List String)) (nm : String),
      (nm, true) ∈ listing →
      (include_hidden || !pyStartsWithDot nm) = true →
      ((nm, base ++ [nm]) ∈ _list_subfolders base listing include_hidden igs ↔
        _is_ignored (base ++ [nm]) igs = false)) ∧
    _is_ignored ["home", "u", "foo-bar"] [["home", "u", "foo"]] = false := by
  refine ⟨?_, ?_, by decide⟩
  · intro p igs
    rw [_is_ignored, List.any_eq_true]
    constructor
    · rintro ⟨ig, hig, h⟩
      obtain ⟨t, ht⟩ := (commonPrefixSeg_eq_iff p ig).mp (by simpa using h)
      rcases t with _ | ⟨s, t⟩
      · exact ⟨ig, hig, Or.inl (by simpa using ht)⟩
      · exact ⟨ig, hig, Or.inr ⟨s :: t, by simp, ht⟩⟩
    · rintro ⟨ig, hig, h | ⟨t, _, ht⟩⟩
      · exact ⟨ig, hig, by simp [(commonPrefixSeg_eq_iff p ig).mpr ⟨[], by simp [h]⟩]⟩
      · exact ⟨ig, hig, by simp [(commonPrefixSeg_eq_iff p ig).mpr ⟨t, ht⟩]⟩
  · intro base listing include_hidden igs nm hmem hhid
    rw [_list_subfolders]
    rw [List.mem_insertionSort]
    constructor
    · intro hout
      obtain ⟨e, _, hfe⟩ := List.mem_filterMap.mp hout
      by_contra hig
      rw [Bool.not_eq_false] at hig
      rcases e with ⟨nm', d⟩
      by_cases hd : d = true
      · subst hd
        simp only [Bool.not_true, if_false] at hfe
        by_cases hig' : _is_ignored (base ++ [nm']) igs = true
        · simp [hig'] at hfe
        · rw [if_neg (by simp [hig'])] at hfe
          split_ifs at hfe
          have hnm : nm' = nm := by
            simpa using congrArg (fun o => (Option.map Prod.fst o).getD "") hfe
          rw [hnm] at hig'
          exact hig' hig
      · simp [Bool.not_eq_true] at hd
        simp [hd] at hfe
    · intro hig
      apply List.mem_filterMap.mpr
      refine ⟨(nm, true), hmem, ?_⟩
      cases include_hidden <;> simp_all [pyStartsWithDot]

/-- C6 witness: with the ignore set resolving to `r/foo`, the sibling
`foo-bar` is enumerated while the descendant `foo` is not. -/
theorem ignored_iff_under_ignore_path_witness :
    ("foo-bar", ["r", "foo-bar"]) ∈
      _list_subfolders ["r"] [("foo-bar", true), ("foo", true)] true [["r", "foo"]] ∧
    ("foo", ["r", "foo"]) ∉
      _list_subfolders ["r"] [("foo-bar", true), ("foo", true)] true [["r", "foo"]] := by
  constructor
  · exact (ignored_iff_under_ignore_path.2.1 ["r"]
      [("foo-bar", true), ("foo", true)] true [["r", "foo"]] "foo-bar"
      (by decide) (by decide)).mpr (by decide)
  · intro hmem
    have h := (ignored_iff_under_ignore_path.2.1 ["r"]
      [("foo-bar", true), ("foo", true)] true [["r", "foo"]] "foo"
      (by decide) (by decide)).mp hmem
    exact absurd h (by decide)

/-- The recursive worker `add_for_base` of `_build_scan_list` (cli.py lines
337-344): list the base path's subfolders, emit each with the current display
prefix, and recurse — with a deepened `"└─ "` prefix — into any child that is
itself a configured target.  The Python recursion terminates because every
recursive base is one segment longer than its parent and must belong to the
finite target set; the `fuel` argument makes the same recursion structural,
and `_build_scan_list` passes `maxTargetLen targets + 1`, which that depth
bound never exhausts. -/
def add_for_base (fs : List String → List (String × Bool))
    (targets : List (List String)) (include_hidden : Bool)
    (ignore_entries : List PyPath) :
    Nat → List String → String → List (String × List String)
  | 0, _, _ => []
  | fuel + 1, base_path, pfx =>
    (_list_subfolders base_path (fs base_path) include_hidden
        (_resolve_ignore_paths base_path ignore_entries)).flatMap
      (fun e =>
        (pfx ++ e.1, e.2) ::
          (if e.2 ∈ targets then
            add_for_base fs targets include_hidden ignore_entries fuel e.2 (pfx ++ "└─ ")
          else []))

/-- The longest segment length among the configured targets (the depth bound
of the nested-root recursion). -/
def maxTargetLen (targets : List (List String)) : Nat :=
  targets.foldl (fun m t => max m t.length) 0

/-- `_build_scan_list` (cli.py lines 328-349): scan each true top-level root
(a target with no ancestor among the targets) in order, concatenating the
entries `add_for_base` produces. -/
def _build_scan_list (fs : List String → List (String × Bool))
    (target_paths : List (List String)) (include_hidden : Bool)
    (ignore_entries : List PyPath) : List (String × List String) :=
  (target_paths.filter (fun q => !_has_ancestor q target_paths)).flatMap
    (fun base => add_for_base fs target_paths include_hidden ignore_entries
      (maxTargetLen target_paths + 1) base "")

/-- C7: (a) the subfolder list of every base path is sorted by the
case-insensitive key relation (so siblings appear in case-insensitive
alphabetical order); (b) when a base's listing splits as `l₁ ++ (nm, p) :: l₂`
with `p` a configured target, the scan output for that base is the block for
`l₁`, then `p`'s own entry, then — immediately after it and before the
entries of the following siblings `l₂` — the recursive block of `p`'s
children under the deepened prefix; (c) `_build_scan_list` is the
concatenation of these per-root outputs over the true top-level roots. -/
theorem scan_list_order_and_nesting :
    (∀ (base : List String) (listing : List (String × Bool)) (ih : Bool)
        (igs : List (List String)),
      List.Sorted entryKeyLe (_list_subfolders base listing ih igs)) ∧
    (∀ (fs : List String → List (String × Bool)) (targets : List (List String))
        (ih : Bool) (ign : List PyPath) (fuel : Nat) (base : List String)
        (pfx : String) (l₁ : List (String × List String)) (nm : String)
        (p : List String) (l₂ : List (String × List String)),
      _list_subfolders base (fs base) ih (_resolve_ignore_paths base ign) =
        l₁ ++ (nm, p) :: l₂ →
      p ∈ targets →
      add_for_base fs targets ih ign (fuel + 1) base pfx =
        l₁.flatMap (fun e => (pfx ++ e.1, e.2) ::
            (if e.2 ∈ targets then
              add_for_base fs targets ih ign fuel e.2 (pfx ++ "└─ ")
            else [])) ++
          ((pfx ++ nm, p) ::
            (add_for_base fs targets ih ign fuel p (pfx ++ "└─ ") ++
              l₂.flatMap (fun e => (pfx ++ e.1, e.2) ::
                (if e.2 ∈ targets then
                  add_for_base fs targets ih ign fuel e.2 (pfx ++ "└─ ")
                else []))))) ∧
    (∀ (fs : List String → List (String × Bool)) (targets : List (List String))
        (ih : Bool) (ign : List PyPath),
      _build_scan_list fs targets ih ign =
        (targets.filter (fun q => !_has_ancestor q targets)).flatMap
          (fun base => add_for_base fs targets ih ign
            (maxTargetLen targets + 1) base "")) := by
  refine ⟨?_, ?_, fun _ _ _ _ => rfl⟩
  · intro base listing ih igs
    rw [_list_subfolders]
    exact List.sorted_insertionSort entryKeyLe _
  · intro fs targets ih ign fuel base pfx l₁ nm p l₂ hlist htgt
    rw [add_for_base, hlist, List.flatMap_append, List.flatMap_cons, if_pos htgt]
    simp

/-- A two-level demonstration filesystem: root `r` has children `beta`,
`Alpha`, `gamma`; `r/beta` has child `x`. -/
def demoFS : List String → List (String × Bool) := fun base =>
  if base = ["r"] then [("beta", true), ("Alpha", true), ("gamma", true)]
  else if base = ["r", "beta"] then [("x", true)] else []

/-- C7 witness: scanning `r` with nested root `r/beta` sorts the siblings
case-insensitively (`Alpha`, `beta`, `gamma`) and places `beta`'s child
`└─ x` immediately after `beta`, before the next sibling `gamma`. -/
theorem scan_list_order_and_nesting_witness :
    add_for_base demoFS [["r"], ["r", "beta"]] true [] 2 ["r"] "" =
      [("Alpha", ["r", "Alpha"]), ("beta", ["r", "beta"]),
       ("└─ x", ["r", "beta", "x"]), ("gamma", ["r", "gamma"])] := by
  have h := scan_list_order_and_nesting.2.1 demoFS [["r"], ["r", "beta"]] true [] 1
    ["r"] "" [("Alpha", ["r", "Alpha"])] "beta" ["r", "beta"]
    [("gamma", ["r", "gamma"])] (by decide) (by decide)
  exact h.trans (by decide)

/-! ## Spec-modelled probe sub-steps

`tests/test_cli_sync_status.py` exercises a helper `_upstream_remote_name`
and a `git fetch --quiet --prune --no-tags <remote>` sub-step between the
upstream query and the divergence query, but the provided `cli.py` contains
neither; they are modelled here from the specification. -/

/-- Modelled from the spec: the remote-name extraction helper
`_upstream_remote_name` (exercised by `tests/test_cli_sync_status.py` but
absent from the provided `cli.py`).  Per the spec, it returns the text
before the first slash of the upstream ref when a slash is present, and no
remote name when there is none. -/
def _upstream_remote_name (ref : String) : Option String :=
  if ref.data.contains '/' then
    some (String.mk (ref.data.takeWhile (fun c => c != '/')))
  else none

/-- C3: the remote-name extraction returns the text before the first slash
(`"origin/main"` yields `"origin"`, `"upstream/feature/foo"` yields
`"upstream"`) and yields nothing for a slash-free ref (`"main"`). -/
theorem upstream_remote_name_spec :
    _upstream_remote_name "origin/main" = some "origin" ∧
      _upstream_remote_name "upstream/feature/foo" = some "upstream" ∧
      _upstream_remote_name "main" = none := by
  decide

/-- The git responses for the probe variant with the best-effort refresh:
the six queries of `GitEnv` plus the response to the
`fetch --quiet --prune --no-tags <remote>` call. -/
structure GitEnvF extends GitEnv where
  fetch : GitResp
  deriving DecidableEq, Repr

/-- Modelled from the spec: `_check_repo` including probe sub-step (6),
which is scripted by both sync-status tests but missing from the provided
`cli.py` — after reading the upstream ref, synchronize remote refs for the
remote named in it, best-effort: the fetch outcome is read and discarded,
so a failure is swallowed and never blocks the divergence query.  All other
steps are exactly those of `_check_repo`. -/
def _check_repo_fetch (env : GitEnvF) (path name : String) : RepoResult :=
  if env.worktree.code ≠ 0 then
    { name, path, is_repo := false, branch := none, is_clean := none,
      origin_url := none, upstream_ref := none, ahead_count := none,
      behind_count := none, error := none }
  else if env.head.code ≠ 0 then
    { name, path, is_repo := true, branch := none, is_clean := none,
      origin_url := none, upstream_ref := none, ahead_count := none,
      behind_count := none, error := pyOrNone env.head.err }
  else if env.status.code ≠ 0 then
    { name, path, is_repo := true, branch := some env.head.out, is_clean := none,
      origin_url := none, upstream_ref := none, ahead_count := none,
      behind_count := none, error := pyOrNone env.status.err }
  else
    let origin_url :=
      if env.origin.code = 0 ∧ env.origin.out ≠ "" then some env.origin.out else none
    if env.upstream.code = 0 ∧ env.upstream.out ≠ "" then
      let _fetched :=
        if (_upstream_remote_name env.upstream.out).isSome then some env.fetch else none
      { name, path, is_repo := true, branch := some env.head.out,
        is_clean := some (env.status.out == ""), origin_url,
        upstream_ref := some env.upstream.out,
        ahead_count := (_divergence env.revlist).2,
        behind_count := (_divergence env.revlist).1,
        error := none }
    else
      { name, path, is_repo := true, branch := some env.head.out,
        is_clean := some (env.status.out == ""), origin_url,
        upstream_ref := none, ahead_count := none, behind_count := none,
        error := none }

/-- C2: when the best-effort refresh fails (`fetch` exits nonzero) but the
divergence query still returns two digit counts, the probe returns non-`none`
ahead and behind counts and `error = none`; the final conjunct makes "never
poisons the overall result" exact: the result does not depend on the fetch
response at all. -/
theorem check_repo_fetch_failure_swallowed (env : GitEnvF) (path name l r : String)
    (h1 : env.worktree.code = 0) (h2 : env.head.code = 0)
    (h3 : env.status.code = 0) (h4 : env.upstream.code = 0)
    (h5 : env.upstream.out ≠ "") (_hf : env.fetch.code ≠ 0)
    (h6 : env.revlist.code = 0) (h7 : env.revlist.out ≠ "")
    (h8 : pySplit env.revlist.out = [l, r])
    (h9 : pyIsDigit l = true) (h10 : pyIsDigit r = true) :
    (_check_repo_fetch env path name).ahead_count = some (pyInt r) ∧
      (_check_repo_fetch env path name).behind_count = some (pyInt l) ∧
      (_check_repo_fetch env path name).error = none ∧
      ∀ f' : GitResp,
        _check_repo_fetch env path name =
          _check_repo_fetch { env with fetch := f' } path name := by
  refine ⟨?_, ?_, ?_, fun f' => rfl⟩ <;>
    simp [_check_repo_fetch, _divergence, h1, h2, h3, h4, h5, h6, h7, h8, h9, h10]

/-- C2 witness: on the scripted probe of the failing-fetch test (fetch exits
128 "offline", divergence output `"0 2"`), the result still carries both
counts and no error. -/
theorem check_repo_fetch_failure_swallowed_witness :
    (_check_repo_fetch
        ⟨⟨⟨0, "true", ""⟩, ⟨0, "main", ""⟩, ⟨0, "", ""⟩,
          ⟨0, "git@example.com:org/repo.git", ""⟩, ⟨0, "origin/main", ""⟩,
          ⟨0, "0 2", ""⟩⟩, ⟨128, "", "offline"⟩⟩ "/tmp/repo" "repo").ahead_count =
      some 2 ∧
    (_check_repo_fetch
        ⟨⟨⟨0, "true", ""⟩, ⟨0, "main", ""⟩, ⟨0, "", ""⟩,
          ⟨0, "git@example.com:org/repo.git", ""⟩, ⟨0, "origin/main", ""⟩,
          ⟨0, "0 2", ""⟩⟩, ⟨128, "", "offline"⟩⟩ "/tmp/repo" "repo").behind_count =
      some 0 ∧
    (_check_repo_fetch
        ⟨⟨⟨0, "true", ""⟩, ⟨0, "main", ""⟩, ⟨0, "", ""⟩,
          ⟨0, "git@example.com:org/repo.git", ""⟩, ⟨0, "origin/main", ""⟩,
          ⟨0, "0 2", ""⟩⟩, ⟨128, "", "offline"⟩⟩ "/tmp/repo" "repo").error = none := by
  have h := check_repo_fetch_failure_swallowed
    ⟨⟨⟨0, "true", ""⟩, ⟨0, "main", ""⟩, ⟨0, "", ""⟩,
      ⟨0, "git@example.com:org/repo.git", ""⟩, ⟨0, "origin/main", ""⟩,
      ⟨0, "0 2", ""⟩⟩, ⟨128, "", "offline"⟩⟩ "/tmp/repo" "repo" "0" "2"
    rfl rfl rfl rfl (by decide) (by decide) rfl (by decide) (by decide)
    (by decide) (by decide)
  exact ⟨h.1.trans (by decide), h.2.1.trans (by decide), h.2.2.1⟩

end RepoCheck
